import Mathlib

/-!
Verification development for the `uruguay-climate-change` repository.

The Python sources are shallowly embedded:
* Python floats that carry measured values, anomaly scores and thresholds
  are modelled as exact rationals (`ℚ`); the threshold comparisons in the
  source are exact decimal comparisons, faithfully represented by `ℚ`.
* JSON dictionaries are modelled as association lists `List (String × Val)`
  over an inductive `Val` of JSON-like values; `getKey` is the Python lookup `dict[k]`
  (first match).
* The scikit-learn `IsolationForest` model, the `StandardScaler`, the pandas
  sample standard deviation (which needs a real square root) and the Gemini
  remote AI service are external to the repository and are abstracted as
  function parameters; everything written in the repository itself is
  translated operation by operation.
* Fallible code (`raise ValueError`, `KeyError` escaping to a Flask 500)
  is modelled with `Except String`.
-/

namespace UruguayClimate

/-- JSON-like values: the payloads the repository builds and caches. -/
inductive Val where
  | str : String → Val
  | num : ℚ → Val
  | bool : Bool → Val
  | list : List Val → Val
  | dict : List (String × Val) → Val

/-- Python `d[k]` / `d.get(k)` on a JSON dict: first binding of `k`. -/
def getKey (d : List (String × Val)) (k : String) : Option Val :=
  match d with
  | [] => none
  | (k', v) :: rest => if k' = k then some v else getKey rest k

/-- Embeds `CyodaAlertClient.classify_severity` (src/src/utils/cyoda_client.py,
lines 267-308), translated branch for branch. -/
def classify_severity (anomaly_score value : ℚ) (metric : String) : String :=
  if metric = "temperature" then
    if anomaly_score > 0.9 ∨ value > 40 ∨ value < -10 then "critical"
    else if anomaly_score > 0.7 ∨ value > 35 ∨ value < -5 then "high"
    else if anomaly_score > 0.5 then "medium"
    else "low"
  else if metric = "precipitation" then
    if anomaly_score > 0.9 ∨ value > 100 then "critical"
    else if anomaly_score > 0.7 ∨ value > 50 then "high"
    else if anomaly_score > 0.5 then "medium"
    else "low"
  else
    if anomaly_score > 0.85 then "critical"
    else if anomaly_score > 0.7 then "high"
    else if anomaly_score > 0.5 then "medium"
    else "low"

/-- Embeds `CyodaAlertClient.determine_alert_type` (src/src/utils/cyoda_client.py,
lines 310-341). The unused `seasonal_context` parameter is dropped. -/
def determine_alert_type (value : ℚ) (metric : String) : String :=
  if metric = "temperature" then
    if value > 35 then "heat_wave"
    else if value < 0 then "freeze_event"
    else if value < 5 then "cold_snap"
    else "temperature_anomaly"
  else if metric = "precipitation" then
    if value > 50 then "extreme_precipitation"
    else if value < 0.1 then "drought_indicator"
    else "precipitation_anomaly"
  else "climate_anomaly"

/-- The order low < medium < high < critical on severity labels, as a rank
(mirrors `severity_order` in `ClimateAlertService.prioritize_alerts`). -/
def severity_rank (s : String) : ℕ :=
  if s = "critical" then 4
  else if s = "high" then 3
  else if s = "medium" then 2
  else if s = "low" then 1
  else 0

/-- C1: `classify_severity` follows the threshold rules exactly: for
"temperature" it is "critical" iff score > 0.9 or value > 40 or value < -10,
otherwise "high" iff score > 0.7 or value > 35 or value < -5, otherwise
"medium" iff score > 0.5, otherwise "low"; for "precipitation" with value
cutoffs 100 and 50; for any other metric by score alone with cutoffs
0.85, 0.7, 0.5; and the result is always one of the four labels. -/
theorem classify_severity_spec (s v : ℚ) (m : String) :
    (m = "temperature" →
      ((classify_severity s v m = "critical" ↔ (s > 0.9 ∨ v > 40 ∨ v < -10)) ∧
       (classify_severity s v m = "high" ↔
         (¬(s > 0.9 ∨ v > 40 ∨ v < -10) ∧ (s > 0.7 ∨ v > 35 ∨ v < -5))) ∧
       (classify_severity s v m = "medium" ↔
         (¬(s > 0.9 ∨ v > 40 ∨ v < -10) ∧ ¬(s > 0.7 ∨ v > 35 ∨ v < -5) ∧ s > 0.5)) ∧
       (classify_severity s v m = "low" ↔
         (¬(s > 0.9 ∨ v > 40 ∨ v < -10) ∧ ¬(s > 0.7 ∨ v > 35 ∨ v < -5) ∧ ¬(s > 0.5))))) ∧
    (m = "precipitation" →
      ((classify_severity s v m = "critical" ↔ (s > 0.9 ∨ v > 100)) ∧
       (classify_severity s v m = "high" ↔
         (¬(s > 0.9 ∨ v > 100) ∧ (s > 0.7 ∨ v > 50))) ∧
       (classify_severity s v m = "medium" ↔
         (¬(s > 0.9 ∨ v > 100) ∧ ¬(s > 0.7 ∨ v > 50) ∧ s > 0.5)) ∧
       (classify_severity s v m = "low" ↔
         (¬(s > 0.9 ∨ v > 100) ∧ ¬(s > 0.7 ∨ v > 50) ∧ ¬(s > 0.5))))) ∧
    (m ≠ "temperature" → m ≠ "precipitation" →
      ((classify_severity s v m = "critical" ↔ s > 0.85) ∧
       (classify_severity s v m = "high" ↔ (¬(s > 0.85) ∧ s > 0.7)) ∧
       (classify_severity s v m = "medium" ↔ (¬(s > 0.85) ∧ ¬(s > 0.7) ∧ s > 0.5)) ∧
       (classify_severity s v m = "low" ↔ (¬(s > 0.85) ∧ ¬(s > 0.7) ∧ ¬(s > 0.5))))) ∧
    (classify_severity s v m = "low" ∨ classify_severity s v m = "medium" ∨
     classify_severity s v m = "high" ∨ classify_severity s v m = "critical") := by
  unfold classify_severity
  split_ifs <;> simp_all

/-- C1 witness: the theorem instantiated at a concrete input. -/
theorem classify_severity_spec_witness :
    classify_severity 0.6 39 "temperature" = "high" := by
  have h := (classify_severity_spec 0.6 39 "temperature").1 rfl
  exact h.2.1.mpr (by norm_num)

/-- C2: `determine_alert_type` returns a label from the fixed eight-element
enumeration, and follows the stated thresholds for "temperature" and
"precipitation", returning "climate_anomaly" for every other metric. -/
theorem determine_alert_type_spec (v : ℚ) (m : String) :
    (m = "temperature" →
      ((determine_alert_type v m = "heat_wave" ↔ v > 35) ∧
       (determine_alert_type v m = "freeze_event" ↔ (¬(v > 35) ∧ v < 0)) ∧
       (determine_alert_type v m = "cold_snap" ↔ (¬(v > 35) ∧ ¬(v < 0) ∧ v < 5)) ∧
       (determine_alert_type v m = "temperature_anomaly" ↔
         (¬(v > 35) ∧ ¬(v < 0) ∧ ¬(v < 5))))) ∧
    (m = "precipitation" →
      ((determine_alert_type v m = "extreme_precipitation" ↔ v > 50) ∧
       (determine_alert_type v m = "drought_indicator" ↔ (¬(v > 50) ∧ v < 0.1)) ∧
       (determine_alert_type v m = "precipitation_anomaly" ↔
         (¬(v > 50) ∧ ¬(v < 0.1))))) ∧
    (m ≠ "temperature" → m ≠ "precipitation" →
      determine_alert_type v m = "climate_anomaly") ∧
    (determine_alert_type v m = "heat_wave" ∨
     determine_alert_type v m = "freeze_event" ∨
     determine_alert_type v m = "cold_snap" ∨
     determine_alert_type v m = "temperature_anomaly" ∨
     determine_alert_type v m = "extreme_precipitation" ∨
     determine_alert_type v m = "drought_indicator" ∨
     determine_alert_type v m = "precipitation_anomaly" ∨
     determine_alert_type v m = "climate_anomaly") := by
  unfold determine_alert_type
  split_ifs <;> simp_all

/-- C2 witness: the theorem instantiated at a concrete input. -/
theorem determine_alert_type_spec_witness :
    determine_alert_type 36 "temperature" = "heat_wave" := by
  have h := (determine_alert_type_spec 36 "temperature").1 rfl
  exact h.1.mpr (by norm_num)

/-- C10: for a fixed value and metric, `classify_severity` is monotone in the
anomaly score with respect to the order low < medium < high < critical. -/
theorem classify_severity_mono (v : ℚ) (m : String) (s1 s2 : ℚ) (h : s1 ≤ s2) :
    severity_rank (classify_severity s1 v m) ≤ severity_rank (classify_severity s2 v m) := by
  unfold classify_severity
  split_ifs <;> simp_all [severity_rank] <;> (try casesm* _ ∨ _, _ ∧ _) <;> linarith

/-- C10 witness: the monotonicity theorem applied at a concrete pair. -/
theorem classify_severity_mono_witness :
    severity_rank (classify_severity 0.6 20 "temperature") ≤
      severity_rank (classify_severity 0.95 20 "temperature") :=
  classify_severity_mono 20 "temperature" 0.6 0.95 (by norm_num)

/-- Python truthiness of an `Optional[str]` (`if description:`). -/
def truthy_str (o : Option String) : Bool :=
  match o with
  | some s => s != ""
  | none => false

/-- Python truthiness of an `Optional[Dict]` (`if ai_analysis:`). -/
def truthy_dict (o : Option (List (String × Val))) : Bool :=
  match o with
  | some d => !d.isEmpty
  | none => false

/-- Python truthiness of an `Optional[List[str]]` (`if recommendations:`). -/
def truthy_list (o : Option (List String)) : Bool :=
  match o with
  | some l => !l.isEmpty
  | none => false

/-- The dictionary returned by the alert-specification builders: an
`entity_model` / `entity_version` pair plus a payload dictionary. -/
structure AlertSpec where
  entity_model : String
  entity_version : String
  entity_data : List (String × Val)

/-- Embeds `CyodaAlertClient.create_alert` (src/src/utils/cyoda_client.py, lines
25-85). `datetime.utcnow().isoformat()` is modelled by the extra `now`
argument; the `location` and `metric` defaults ("Uruguay", "temperature")
are supplied by callers. -/
def create_alert (alert_type severity : String) (value : ℚ) (date : String)
    (anomaly_score : ℚ) (location metric : String)
    (description : Option String) (ai_analysis : Option (List (String × Val)))
    (recommendations : Option (List String)) (now : String) : AlertSpec :=
  let entity_data : List (String × Val) :=
    [("alert_type", Val.str alert_type), ("severity", Val.str severity),
     ("value", Val.num value), ("date", Val.str date),
     ("anomaly_score", Val.num anomaly_score), ("location", Val.str location),
     ("metric", Val.str metric), ("status", Val.str "active"),
     ("created_at", Val.str now), ("acknowledged", Val.bool false),
     ("resolved", Val.bool false)]
  let entity_data := entity_data ++
    (if truthy_str description then [("description", Val.str (description.getD ""))] else [])
  let entity_data := entity_data ++
    (if truthy_dict ai_analysis then [("ai_analysis", Val.dict (ai_analysis.getD []))] else [])
  let entity_data := entity_data ++
    (if truthy_list recommendations then
      [("recommendations", Val.list ((recommendations.getD []).map Val.str))] else [])
  { entity_model := "climate_alert", entity_version := "1", entity_data := entity_data }

/-- The mutable state visible to `CyodaAlertClient` methods: the client
object has no attributes (`__init__` is `pass`); `store` stands for any
external entity store a side-effecting method would have to touch. -/
structure ClientState where
  store : List (String × Val)

/-- Method `create_alert` in state-passing form: the method body contains no
attribute assignment, no global write and no I/O call, so the state
threads through unchanged. -/
def create_alert_st (st : ClientState) (alert_type severity : String) (value : ℚ)
    (date : String) (anomaly_score : ℚ) (location metric : String)
    (description : Option String) (ai_analysis : Option (List (String × Val)))
    (recommendations : Option (List String)) (now : String) : ClientState × AlertSpec :=
  (st, create_alert alert_type severity value date anomaly_score location metric
        description ai_analysis recommendations now)

/-- C3: `create_alert` is effect-free data construction — the client/store
state is returned unchanged — and the returned specification has
entity_model "climate_alert", entity_version "1", and an entity_data
dictionary whose keys are exactly the supplied alert fields plus status,
created_at, acknowledged and resolved, with the optional description,
ai_analysis and recommendations keys present iff the corresponding argument
is truthy. -/
theorem create_alert_effect_free (st : ClientState) (alert_type severity : String)
    (value : ℚ) (date : String) (anomaly_score : ℚ) (location metric : String)
    (description : Option String) (ai_analysis : Option (List (String × Val)))
    (recommendations : Option (List String)) (now : String) :
    (create_alert_st st alert_type severity value date anomaly_score location metric
        description ai_analysis recommendations now).1 = st ∧
    ((create_alert_st st alert_type severity value date anomaly_score location metric
        description ai_analysis recommendations now).2 =
      create_alert alert_type severity value date anomaly_score location metric
        description ai_analysis recommendations now) ∧
    (create_alert alert_type severity value date anomaly_score location metric
        description ai_analysis recommendations now).entity_model = "climate_alert" ∧
    (create_alert alert_type severity value date anomaly_score location metric
        description ai_analysis recommendations now).entity_version = "1" ∧
    ((create_alert alert_type severity value date anomaly_score location metric
        description ai_analysis recommendations now).entity_data.map Prod.fst =
      ["alert_type", "severity", "value", "date", "anomaly_score", "location",
       "metric", "status", "created_at", "acknowledged", "resolved"] ++
      (if truthy_str description then ["description"] else []) ++
      (if truthy_dict ai_analysis then ["ai_analysis"] else []) ++
      (if truthy_list recommendations then ["recommendations"] else [])) ∧
    (let ed := (create_alert alert_type severity value date anomaly_score location
        metric description ai_analysis recommendations now).entity_data
     getKey ed "alert_type" = some (Val.str alert_type) ∧
     getKey ed "severity" = some (Val.str severity) ∧
     getKey ed "value" = some (Val.num value) ∧
     getKey ed "date" = some (Val.str date) ∧
     getKey ed "anomaly_score" = some (Val.num anomaly_score) ∧
     getKey ed "location" = some (Val.str location) ∧
     getKey ed "metric" = some (Val.str metric) ∧
     getKey ed "status" = some (Val.str "active") ∧
     getKey ed "created_at" = some (Val.str now) ∧
     getKey ed "acknowledged" = some (Val.bool false) ∧
     getKey ed "resolved" = some (Val.bool false) ∧
     ((getKey ed "description").isSome = truthy_str description) ∧
     ((getKey ed "ai_analysis").isSome = truthy_dict ai_analysis) ∧
     ((getKey ed "recommendations").isSome = truthy_list recommendations)) := by
  unfold create_alert_st create_alert truthy_str truthy_dict truthy_list
  rcases description with _ | d <;> rcases ai_analysis with _ | a <;>
    rcases recommendations with _ | r <;> split_ifs <;> simp_all [getKey]

/-- A Cyoda simple search condition, as built in `search_alerts`. -/
def simple_cond (path op : String) (v : Val) : Val :=
  Val.dict [("type", Val.str "simple"), ("jsonPath", Val.str path),
            ("operatorType", Val.str op), ("value", v)]

/-- The result of `search_alerts`. -/
structure SearchSpec where
  entity_model : String
  entity_version : String
  search_conditions : Val

/-- Embeds `CyodaAlertClient.search_alerts` (src/src/utils/cyoda_client.py, lines
115-205): sequentially appends one simple condition per supplied filter,
then wraps zero, one, or several conditions as `{}`, the condition itself,
or an AND group. String filters are tested for truthiness (`if status:`),
the score filter with `is not None`. -/
def search_conditions_list (status severity alert_type : Option String)
    (min_anomaly_score : Option ℚ) (date_from date_to : Option String) : List Val :=
  ([] : List Val) ++
  (if truthy_str status then
    [simple_cond "$.status" "EQUALS" (Val.str (status.getD ""))] else []) ++
  (if truthy_str severity then
    [simple_cond "$.severity" "EQUALS" (Val.str (severity.getD ""))] else []) ++
  (if truthy_str alert_type then
    [simple_cond "$.alert_type" "EQUALS" (Val.str (alert_type.getD ""))] else []) ++
  (match min_anomaly_score with
   | some q => [simple_cond "$.anomaly_score" "GREATER_THAN" (Val.num q)]
   | none => []) ++
  (if truthy_str date_from then
    [simple_cond "$.date" "GREATER_THAN" (Val.str (date_from.getD ""))] else []) ++
  (if truthy_str date_to then
    [simple_cond "$.date" "LESS_THAN" (Val.str (date_to.getD ""))] else [])

def search_alerts (status severity alert_type : Option String)
    (min_anomaly_score : Option ℚ) (date_from date_to : Option String) : SearchSpec :=
  let conditions :=
    search_conditions_list status severity alert_type min_anomaly_score date_from date_to
  let search_conditions :=
    if conditions.length = 0 then Val.dict []
    else if conditions.length = 1 then conditions.headD (Val.dict [])
    else Val.dict [("type", Val.str "group"), ("operator", Val.str "AND"),
                   ("conditions", Val.list conditions)]
  ⟨"climate_alert", "1", search_conditions⟩

/-- The zero/one/many wrap-up of the condition list, stated as a match,
agrees with the length tests of the source. -/
theorem cond_wrap_eq_match (l : List Val) :
    (if l.length = 0 then Val.dict []
     else if l.length = 1 then l.headD (Val.dict [])
     else Val.dict [("type", Val.str "group"), ("operator", Val.str "AND"),
                    ("conditions", Val.list l)]) =
      (match l with
       | [] => Val.dict []
       | [c] => c
       | _ => Val.dict [("type", Val.str "group"), ("operator", Val.str "AND"),
                        ("conditions", Val.list l)]) := by
  match l with
  | [] => rfl
  | [c] => rfl
  | a :: b :: t => simp

/-- C5: the `search_conditions` field of `search_alerts` is the empty dict
with zero supplied filters, the single simple condition with one, and an
AND group over exactly the simple conditions in the fixed order status,
severity, alert_type, min_anomaly_score, date_from, date_to with two or
more; the operators are EQUALS for the first three, GREATER_THAN for the
score and start date, LESS_THAN for the end date. -/
theorem search_alerts_conditions (status severity alert_type : Option String)
    (min_anomaly_score : Option ℚ) (date_from date_to : Option String) :
    (search_conditions_list status severity alert_type min_anomaly_score date_from
        date_to =
      (if truthy_str status then
        [simple_cond "$.status" "EQUALS" (Val.str (status.getD ""))] else []) ++
      (if truthy_str severity then
        [simple_cond "$.severity" "EQUALS" (Val.str (severity.getD ""))] else []) ++
      (if truthy_str alert_type then
        [simple_cond "$.alert_type" "EQUALS" (Val.str (alert_type.getD ""))] else []) ++
      (if min_anomaly_score.isSome then
        [simple_cond "$.anomaly_score" "GREATER_THAN"
          (Val.num (min_anomaly_score.getD 0))] else []) ++
      (if truthy_str date_from then
        [simple_cond "$.date" "GREATER_THAN" (Val.str (date_from.getD ""))] else []) ++
      (if truthy_str date_to then
        [simple_cond "$.date" "LESS_THAN" (Val.str (date_to.getD ""))] else [])) ∧
    (search_alerts status severity alert_type min_anomaly_score date_from
        date_to).search_conditions =
      (match search_conditions_list status severity alert_type min_anomaly_score
          date_from date_to with
       | [] => Val.dict []
       | [c] => c
       | _ => Val.dict [("type", Val.str "group"), ("operator", Val.str "AND"),
                        ("conditions", Val.list (search_conditions_list status severity
                          alert_type min_anomaly_score date_from date_to))]) ∧
    (search_alerts status severity alert_type min_anomaly_score date_from
        date_to).entity_model = "climate_alert" ∧
    (search_alerts status severity alert_type min_anomaly_score date_from
        date_to).entity_version = "1" := by
  refine ⟨?_, ?_, rfl, rfl⟩
  · rcases min_anomaly_score with _ | q <;> rfl
  · exact cond_wrap_eq_match _

/-! ## The anomaly-detection feature pipeline
(src/src/models/anomaly_detector.py). A pandas numeric column is a
`List (Option ℚ)`, `none` standing for NaN. The sample standard deviation
(a real square root) is abstracted as a function argument `std`; all the
NaN bookkeeping is translated from the source. -/

/-- All entries of a window, or `none` if any is NaN. -/
def optSeq : List (Option ℚ) → Option (List ℚ)
  | [] => some []
  | none :: _ => none
  | some x :: rest => (optSeq rest).map (fun l => x :: l)

/-- Embeds `Series.rolling(window=w).agg()` with the default
`min_periods = w`: entry `i` aggregates the window ending at `i` when the
window is full and NaN-free, and is NaN otherwise. -/
def rolling_apply (w : ℕ) (agg : List ℚ → ℚ) (xs : List (Option ℚ)) :
    List (Option ℚ) :=
  (List.range xs.length).map fun i =>
    if w ≤ i + 1 then
      match optSeq ((xs.take (i + 1)).drop (i + 1 - w)) with
      | some vs => some (agg vs)
      | none => none
    else none

/-- The mean aggregate used by `.rolling(w).mean()` on a full window. -/
def window_mean (w : ℕ) (vs : List ℚ) : ℚ := vs.sum / (w : ℚ)

/-- Embeds `Series.diff()`: NaN at index 0, elsewhere the difference with the
previous entry (NaN if either side is NaN). -/
def diff_col (xs : List (Option ℚ)) : List (Option ℚ) :=
  (List.range xs.length).map fun i =>
    match i with
    | 0 => none
    | Nat.succ j =>
      match xs.getD j none, xs.getD (j + 1) none with
      | some a, some b => some (b - a)
      | _, _ => none

/-- Embeds `DataFrame.bfill()` on one column: each NaN takes the next valid value
below it, if any. -/
def bfill : List (Option ℚ) → List (Option ℚ)
  | [] => []
  | x :: rest =>
    let r := bfill rest
    (match x with
     | some v => some v
     | none => r.headD none) :: r

/-- Embeds `DataFrame.ffill()` on one column: each NaN takes the last valid value
above it (`last`), if any. -/
def ffill (last : Option ℚ) : List (Option ℚ) → List (Option ℚ)
  | [] => []
  | some v :: rest => some v :: ffill (some v) rest
  | none :: rest => last :: ffill last rest

/-- Embeds `DataFrame.fillna(0)` on one column. -/
def fillna0 (xs : List (Option ℚ)) : List (Option ℚ) :=
  xs.map (fun o => some (o.getD 0))

/-- The fill chain applied to the feature frame:
`features.bfill().ffill()` then `features.fillna(0)`. -/
def fill_column (c : List (Option ℚ)) : List (Option ℚ) :=
  fillna0 (ffill none (bfill c))

/-- One parsed entry of the `date` column: `pd.to_datetime` output with its
ISO string, `.dt.dayofyear` and `.dt.month`. -/
structure DateInfo where
  iso : String
  dayofyear : ℕ
  month : ℕ

/-- Embeds `ClimateAnomalyDetector.prepare_features`
(src/src/models/anomaly_detector.py, lines 29-65): the named feature
columns in construction order, then the bfill/ffill/fillna(0) chain.
`values` is the `value_column`; `dates` is the parsed `date` column when
the DataFrame has one. -/
def prepare_features (std : List ℚ → ℚ) (values : List (Option ℚ))
    (dates : Option (List DateInfo)) : List (String × List (Option ℚ)) :=
  let base : List (String × List (Option ℚ)) :=
    [("value", values),
     ("rolling_mean_7", rolling_apply 7 (window_mean 7) values),
     ("rolling_std_7", rolling_apply 7 std values),
     ("rolling_mean_14", rolling_apply 14 (window_mean 14) values),
     ("rolling_std_14", rolling_apply 14 std values),
     ("rolling_mean_30", rolling_apply 30 (window_mean 30) values),
     ("rolling_std_30", rolling_apply 30 std values),
     ("daily_change", diff_col values)]
  let withDates := base ++
    (match dates with
     | some ds =>
       [("day_of_year", ds.map (fun d => some ((d.dayofyear : ℚ)))),
        ("month", ds.map (fun d => some ((d.month : ℚ))))]
     | none => [])
  withDates.map (fun c => (c.1, fill_column c.2))

theorem bfill_length (l : List (Option ℚ)) : (bfill l).length = l.length := by
  induction l with
  | nil => rfl
  | cons x rest ih => simp [bfill, ih]

theorem ffill_length (l : List (Option ℚ)) :
    ∀ last, (ffill last l).length = l.length := by
  induction l with
  | nil => intro last; rfl
  | cons x rest ih => intro last; cases x <;> simp [ffill, ih]

theorem fillna0_length (l : List (Option ℚ)) : (fillna0 l).length = l.length := by
  simp [fillna0]

theorem fill_column_length (c : List (Option ℚ)) :
    (fill_column c).length = c.length := by
  simp [fill_column, fillna0_length, ffill_length, bfill_length]

theorem fill_column_isSome (c : List (Option ℚ)) :
    ∀ x ∈ fill_column c, x.isSome := by
  intro x hx
  simp only [fill_column, fillna0, List.mem_map] at hx
  obtain ⟨o, _, rfl⟩ := hx
  rfl

theorem rolling_apply_length (w : ℕ) (agg : List ℚ → ℚ) (xs : List (Option ℚ)) :
    (rolling_apply w agg xs).length = xs.length := by
  simp [rolling_apply]

theorem diff_col_length (xs : List (Option ℚ)) :
    (diff_col xs).length = xs.length := by
  simp [diff_col]

/-- C6: `prepare_features` produces exactly the named feature columns (the
raw value, rolling mean and std over windows 7, 14, 30, the day-over-day
difference, and day-of-year and month when a date column exists), each with
one row per input row, and after the bfill/ffill/zero-fill chain no cell
is NaN, for inputs of any length including a single row. -/
theorem prepare_features_no_nan (std : List ℚ → ℚ) (values : List (Option ℚ))
    (dates : Option (List DateInfo))
    (hlen : ∀ ds, dates = some ds → ds.length = values.length) :
    ((prepare_features std values dates).map Prod.fst =
      ["value", "rolling_mean_7", "rolling_std_7", "rolling_mean_14",
       "rolling_std_14", "rolling_mean_30", "rolling_std_30", "daily_change"] ++
      (match dates with
       | some _ => ["day_of_year", "month"]
       | none => [])) ∧
    (∀ c ∈ prepare_features std values dates, c.2.length = values.length) ∧
    (∀ c ∈ prepare_features std values dates, ∀ x ∈ c.2, x.isSome) := by
  refine ⟨?_, ?_, ?_⟩
  · cases dates <;> simp [prepare_features]
  · intro c hc
    simp only [prepare_features, List.mem_map] at hc
    obtain ⟨c', hc', rfl⟩ := hc
    rw [fill_column_length]
    rcases dates with _ | ds
    · simp only [List.mem_append, List.mem_cons, List.not_mem_nil, or_false] at hc'
      rcases hc' with rfl | rfl | rfl | rfl | rfl | rfl | rfl | rfl <;>
        simp [rolling_apply_length, diff_col_length]
    · simp only [List.mem_append, List.mem_cons, List.not_mem_nil, or_false] at hc'
      rcases hc' with (rfl | rfl | rfl | rfl | rfl | rfl | rfl | rfl) | rfl | rfl <;>
        simp [rolling_apply_length, diff_col_length, hlen ds rfl]
  · intro c hc
    simp only [prepare_features, List.mem_map] at hc
    obtain ⟨c', _, rfl⟩ := hc
    exact fill_column_isSome c'.2

/-- C6 witness: the column names at a one-row DataFrame without dates. -/
theorem prepare_features_no_nan_witness :
    (prepare_features (fun _ => 0) [some 1] none).map Prod.fst =
      ["value", "rolling_mean_7", "rolling_std_7", "rolling_mean_14",
       "rolling_std_14", "rolling_mean_30", "rolling_std_30", "daily_change"] :=
  (prepare_features_no_nan (fun _ => 0) [some 1] none (by simp)).1

/-! ## `ClimateAnomalyDetector.detect`
The scikit-learn `IsolationForest` and `StandardScaler` are outside the
repository; a fitted detector is abstracted as row-wise functions:
`transform` (the scaler), `predict` (-1 for anomaly, 1 for normal) and
`score_samples` (lower = more anomalous). -/

structure Detector where
  fitted : Bool
  transform : List ℚ → List ℚ
  predict : List ℚ → Int
  score_samples : List ℚ → ℚ

/-- Row `i` of the prepared feature matrix (the cells are all non-NaN after
the fill chain; the defaults here are never reached). -/
def feature_row (std : List ℚ → ℚ) (values : List (Option ℚ))
    (dates : Option (List DateInfo)) (i : ℕ) : List ℚ :=
  (prepare_features std values dates).map (fun c => ((c.2.getD i none).getD 0))

/-- One row of the DataFrame returned by `detect`: the input row plus the
two added columns. -/
structure DetRow where
  date : Option String
  value : ℚ
  is_anomaly : Bool
  anomaly_score : ℚ

/-- Embeds `ClimateAnomalyDetector.detect` (src/src/models/anomaly_detector.py,
lines 90-121): raises unless fitted, then scales the prepared features and
adds `is_anomaly` (`predictions == -1`) and `anomaly_score`
(`-scores`, so that higher means more anomalous) to a copy of the input. -/
def detect_row (D : Detector) (std : List ℚ → ℚ) (values : List ℚ)
    (dates : Option (List DateInfo)) (i : ℕ) : DetRow :=
  let x := D.transform (feature_row std (values.map some) dates i)
  ⟨(dates.bind (fun ds => ds.get? i)).map DateInfo.iso,
   values.getD i 0,
   D.predict x == -1,
   -(D.score_samples x)⟩

def detect (D : Detector) (std : List ℚ → ℚ) (values : List ℚ)
    (dates : Option (List DateInfo)) : Except String (List DetRow) :=
  if D.fitted = false then Except.error "Model not trained yet!"
  else Except.ok ((List.range values.length).map (detect_row D std values dates))

/-- C7: on a fitted detector, `detect` succeeds and returns one row per
input row where `is_anomaly` holds exactly when the abstract model predicts
-1 on the scaled feature row, `anomaly_score` is the negated
`score_samples` output, the input value is carried through, and
`anomaly_score` reverses the order of `score_samples`, so a higher
`anomaly_score` always means a more anomalous point. -/
theorem detect_spec (D : Detector) (std : List ℚ → ℚ) (values : List ℚ)
    (dates : Option (List DateInfo)) (hfit : D.fitted = true) :
    ∃ rows, detect D std values dates = Except.ok rows ∧
      rows.length = values.length ∧
      (∀ i (hi : i < rows.length),
        ((rows.get ⟨i, hi⟩).is_anomaly = true ↔
          D.predict (D.transform (feature_row std (values.map some) dates i)) = -1) ∧
        (rows.get ⟨i, hi⟩).anomaly_score =
          -(D.score_samples (D.transform (feature_row std (values.map some) dates i))) ∧
        (rows.get ⟨i, hi⟩).value = values.getD i 0) ∧
      (∀ i (hi : i < rows.length) (j : ℕ) (hj : j < rows.length),
        ((rows.get ⟨i, hi⟩).anomaly_score < (rows.get ⟨j, hj⟩).anomaly_score ↔
          D.score_samples (D.transform (feature_row std (values.map some) dates j)) <
            D.score_samples (D.transform (feature_row std (values.map some) dates i)))) := by
  refine ⟨(List.range values.length).map (detect_row D std values dates),
    ?_, ?_, ?_, ?_⟩
  · simp [detect, hfit]
  · simp
  · intro i hi
    simp only [List.length_map, List.length_range] at hi
    simp [List.getElem_map, List.getElem_range, detect_row, beq_iff_eq]
  · intro i hi j hj
    simp only [List.length_map, List.length_range] at hi hj
    simp [List.getElem_map, List.getElem_range, detect_row]

/-- C7 witness: a concrete fitted detector on a one-row input. -/
theorem detect_spec_witness :
    (detect ⟨true, id, fun _ => -1, fun _ => 0⟩ (fun _ => 0) [1] none).isOk = true := by
  obtain ⟨rows, h1, -⟩ :=
    detect_spec ⟨true, id, fun _ => -1, fun _ => 0⟩ (fun _ => 0) [1] none rfl
  rw [h1]
  rfl

/-! ## `ClimateAlertService.detect_and_create_alerts`
(src/src/services/alert_service.py, lines 38-122). The Gemini analysis is
an external service wrapped in try/except: it is abstracted as
`aiFn : Option (AlertCtx → Option AiRes)`, `none` standing for
`use_ai_analysis` false or a missing gemini client, and an inner `none`
for a raised exception (both fall back to the basic description).
`fmt1` abstracts the `f"{value:.1f}"` float formatting. -/

/-- The fields `_generate_ai_analysis` is read back for
(`.get("analysis", {})`, `.get("recommendations", [])`,
`.get("summary", "")`). -/
structure AiRes where
  analysis : List (String × Val)
  recommendations : List String
  summary : String

/-- The alert context handed to the AI analysis. -/
structure AlertCtx where
  alert_type : String
  severity : String
  value : ℚ
  metric : String
  anomaly_score : ℚ
  date : String

/-- The `alert_names` table of `_generate_basic_description`. -/
def alert_display_name (t : String) : String :=
  if t = "heat_wave" then "Heat Wave"
  else if t = "cold_snap" then "Cold Snap"
  else if t = "freeze_event" then "Freeze Event"
  else if t = "extreme_precipitation" then "Extreme Precipitation"
  else if t = "drought_indicator" then "Drought Indicator"
  else if t = "temperature_anomaly" then "Temperature Anomaly"
  else if t = "precipitation_anomaly" then "Precipitation Anomaly"
  else if t = "climate_anomaly" then "Climate Anomaly"
  else "Climate Alert"

/-- Embeds `ClimateAlertService._generate_basic_description`; `.title()` on the
one-word severity labels is `capitalize`. -/
def generate_basic_description (fmt1 : ℚ → String) (alert_type severity : String)
    (value : ℚ) (metric : String) : String :=
  severity.capitalize ++ " " ++ alert_display_name alert_type ++ " detected: " ++
    fmt1 value ++ (if metric = "temperature" then "°C" else "mm")

/-- The alert specification built for one anomalous row of the detection
result (the body of the `for _, row in anomalies.iterrows()` loop). -/
def make_alert_spec (aiFn : Option (AlertCtx → Option AiRes)) (fmt1 : ℚ → String)
    (now : String) (metric : String) (r : DetRow) : AlertSpec :=
  let date := r.date.getD now
  let severity := classify_severity r.anomaly_score r.value metric
  let alert_type := determine_alert_type r.value metric
  match aiFn with
  | some f =>
    match f ⟨alert_type, severity, r.value, metric, r.anomaly_score, date⟩ with
    | some a =>
      create_alert alert_type severity r.value date r.anomaly_score "Uruguay" metric
        (some a.summary) (some a.analysis) (some a.recommendations) now
    | none =>
      create_alert alert_type severity r.value date r.anomaly_score "Uruguay" metric
        (some (generate_basic_description fmt1 alert_type severity r.value metric))
        none none now
  | none =>
    create_alert alert_type severity r.value date r.anomaly_score "Uruguay" metric
      (some (generate_basic_description fmt1 alert_type severity r.value metric))
      none none now

/-- Embeds `ClimateAlertService.detect_and_create_alerts`: detect, filter the rows
flagged as anomalies, and build one alert specification per such row. -/
def detect_and_create_alerts (D : Detector) (std : List ℚ → ℚ)
    (aiFn : Option (AlertCtx → Option AiRes)) (fmt1 : ℚ → String) (now : String)
    (values : List ℚ) (dates : Option (List DateInfo)) (metric : String) :
    Except String (List AlertSpec) :=
  match detect D std values dates with
  | Except.error e => Except.error e
  | Except.ok results =>
    Except.ok ((results.filter (fun r => r.is_anomaly)).map
      (make_alert_spec aiFn fmt1 now metric))

/-- The five always-fixed entries of a `create_alert` payload, looked up by
key; shared by the proofs about the specification builders. -/
theorem create_alert_base_fields (alert_type severity : String) (value : ℚ)
    (date : String) (anomaly_score : ℚ) (location metric : String)
    (description : Option String) (ai_analysis : Option (List (String × Val)))
    (recommendations : Option (List String)) (now : String) :
    getKey (create_alert alert_type severity value date anomaly_score location metric
      description ai_analysis recommendations now).entity_data "alert_type" =
        some (Val.str alert_type) ∧
    getKey (create_alert alert_type severity value date anomaly_score location metric
      description ai_analysis recommendations now).entity_data "severity" =
        some (Val.str severity) ∧
    getKey (create_alert alert_type severity value date anomaly_score location metric
      description ai_analysis recommendations now).entity_data "status" =
        some (Val.str "active") ∧
    getKey (create_alert alert_type severity value date anomaly_score location metric
      description ai_analysis recommendations now).entity_data "acknowledged" =
        some (Val.bool false) ∧
    getKey (create_alert alert_type severity value date anomaly_score location metric
      description ai_analysis recommendations now).entity_data "resolved" =
        some (Val.bool false) := by
  unfold create_alert
  simp [getKey]

/-- The per-row specification always carries the computed row type and
severity and the fresh-alert flags, on every AI path. -/
theorem make_alert_spec_fields (aiFn : Option (AlertCtx → Option AiRes))
    (fmt1 : ℚ → String) (now metric : String) (r : DetRow) :
    getKey (make_alert_spec aiFn fmt1 now metric r).entity_data "alert_type" =
      some (Val.str (determine_alert_type r.value metric)) ∧
    getKey (make_alert_spec aiFn fmt1 now metric r).entity_data "severity" =
      some (Val.str (classify_severity r.anomaly_score r.value metric)) ∧
    getKey (make_alert_spec aiFn fmt1 now metric r).entity_data "status" =
      some (Val.str "active") ∧
    getKey (make_alert_spec aiFn fmt1 now metric r).entity_data "acknowledged" =
      some (Val.bool false) ∧
    getKey (make_alert_spec aiFn fmt1 now metric r).entity_data "resolved" =
      some (Val.bool false) := by
  unfold make_alert_spec
  dsimp only
  split
  · split <;> exact create_alert_base_fields _ _ _ _ _ _ _ _ _ _ _
  · exact create_alert_base_fields _ _ _ _ _ _ _ _ _ _ _

/-- C4: on a fitted detector, `detect_and_create_alerts` returns exactly one
alert specification per detection-result row whose `is_anomaly` flag is
true, in row order, and that entry of entity_data carries
`determine_alert_type` of the row value and `classify_severity` of the
row anomaly score and value; unflagged rows produce no specification. -/
theorem detect_and_create_alerts_spec (D : Detector) (std : List ℚ → ℚ)
    (aiFn : Option (AlertCtx → Option AiRes)) (fmt1 : ℚ → String) (now : String)
    (values : List ℚ) (dates : Option (List DateInfo)) (metric : String)
    (hfit : D.fitted = true) :
    ∃ rows specs,
      detect D std values dates = Except.ok rows ∧
      detect_and_create_alerts D std aiFn fmt1 now values dates metric =
        Except.ok specs ∧
      specs.length = (rows.filter (fun r => r.is_anomaly)).length ∧
      ∀ i (hi : i < (rows.filter (fun r => r.is_anomaly)).length)
        (hi' : i < specs.length),
        getKey (specs.get ⟨i, hi'⟩).entity_data "alert_type" =
          some (Val.str (determine_alert_type
            ((rows.filter (fun r => r.is_anomaly)).get ⟨i, hi⟩).value metric)) ∧
        getKey (specs.get ⟨i, hi'⟩).entity_data "severity" =
          some (Val.str (classify_severity
            ((rows.filter (fun r => r.is_anomaly)).get ⟨i, hi⟩).anomaly_score
            ((rows.filter (fun r => r.is_anomaly)).get ⟨i, hi⟩).value metric)) := by
  have hrows : detect D std values dates =
      Except.ok ((List.range values.length).map (detect_row D std values dates)) := by
    simp [detect, hfit]
  refine ⟨(List.range values.length).map (detect_row D std values dates),
    (((List.range values.length).map (detect_row D std values dates)).filter
      (fun r => r.is_anomaly)).map (make_alert_spec aiFn fmt1 now metric),
    hrows, ?_, ?_, ?_⟩
  · unfold detect_and_create_alerts
    rw [hrows]
  · simp
  · intro i hi hi'
    have := make_alert_spec_fields aiFn fmt1 now metric
      ((((List.range values.length).map (detect_row D std values dates)).filter
        (fun r => r.is_anomaly)).get ⟨i, hi⟩)
    simpa [List.getElem_map] using ⟨this.1, this.2.1⟩

/-- C4 witness: a concrete fitted detector flagging the single input row. -/
theorem detect_and_create_alerts_spec_witness :
    (detect_and_create_alerts ⟨true, id, fun _ => -1, fun _ => 0⟩ (fun _ => 0) none
      (fun _ => "50.0") "t" [50] none "temperature").isOk = true := by
  obtain ⟨rows, specs, h1, h2, -⟩ :=
    detect_and_create_alerts_spec ⟨true, id, fun _ => -1, fun _ => 0⟩ (fun _ => 0)
      none (fun _ => "50.0") "t" [50] none "temperature" rfl
  rw [h2]
  rfl

/-- C9: every specification produced by `create_alert`, and hence every
specification returned by `detect_and_create_alerts`, describes a newly
created alert: its entity_data always has status "active", acknowledged
False and resolved False, regardless of the input arguments. -/
theorem alert_specs_are_new :
    (∀ (alert_type severity : String) (value : ℚ) (date : String)
       (anomaly_score : ℚ) (location metric : String)
       (description : Option String) (ai_analysis : Option (List (String × Val)))
       (recommendations : Option (List String)) (now : String),
       getKey (create_alert alert_type severity value date anomaly_score location
         metric description ai_analysis recommendations now).entity_data "status" =
           some (Val.str "active") ∧
       getKey (create_alert alert_type severity value date anomaly_score location
         metric description ai_analysis recommendations now).entity_data
           "acknowledged" = some (Val.bool false) ∧
       getKey (create_alert alert_type severity value date anomaly_score location
         metric description ai_analysis recommendations now).entity_data
           "resolved" = some (Val.bool false)) ∧
    (∀ (D : Detector) (std : List ℚ → ℚ) (aiFn : Option (AlertCtx → Option AiRes))
       (fmt1 : ℚ → String) (now : String) (values : List ℚ)
       (dates : Option (List DateInfo)) (metric : String) (specs : List AlertSpec),
       detect_and_create_alerts D std aiFn fmt1 now values dates metric =
         Except.ok specs →
       ∀ spec ∈ specs,
         getKey spec.entity_data "status" = some (Val.str "active") ∧
         getKey spec.entity_data "acknowledged" = some (Val.bool false) ∧
         getKey spec.entity_data "resolved" = some (Val.bool false)) := by
  constructor
  · intro alert_type severity value date anomaly_score location metric
      description ai_analysis recommendations now
    have h := create_alert_base_fields alert_type severity value date anomaly_score
      location metric description ai_analysis recommendations now
    exact ⟨h.2.2.1, h.2.2.2.1, h.2.2.2.2⟩
  · intro D std aiFn fmt1 now values dates metric specs hspecs spec hmem
    unfold detect_and_create_alerts at hspecs
    cases hd : detect D std values dates with
    | error e => rw [hd] at hspecs; exact absurd hspecs (by simp)
    | ok results =>
      rw [hd] at hspecs
      simp only [Except.ok.injEq] at hspecs
      subst hspecs
      simp only [List.mem_map] at hmem
      obtain ⟨r, -, rfl⟩ := hmem
      have h := make_alert_spec_fields aiFn fmt1 now metric r
      exact ⟨h.2.2.1, h.2.2.2.1, h.2.2.2.2⟩

/-- C9 witness: the invariant read off a concrete run with one anomalous
row. -/
theorem alert_specs_are_new_witness :
    getKey (make_alert_spec none (fun _ => "50.0") "t" "temperature"
      (detect_row ⟨true, id, fun _ => -1, fun _ => 0⟩ (fun _ => 0) [50] none
        0)).entity_data "status" = some (Val.str "active") := by
  have h := alert_specs_are_new.2 ⟨true, id, fun _ => -1, fun _ => 0⟩ (fun _ => 0)
    none (fun _ => "50.0") "t" [50] none "temperature"
    [make_alert_spec none (fun _ => "50.0") "t" "temperature"
      (detect_row ⟨true, id, fun _ => -1, fun _ => 0⟩ (fun _ => 0) [50] none 0)]
    (by rfl) _ (List.mem_singleton.mpr rfl)
  exact h.1

/-! ## The `/api/alerts/list` route (src/backend/api/alert_routes.py,
lines 290-357). The cache is the single in-memory list
`list_alerts.cached_alerts`. HTTP/JSON parsing is outside the embedding: a
request is either a GET, a POST whose (truthy dict) body carries an
"alerts" field holding a list — `Req.post (some es)` — or a POST without a
usable alerts field, which falls through to the GET logic. An exception
raised while normalizing becomes a Flask 500: the handler returns an error
and the cache assignment, which happens only after the loop, never runs. -/

inductive Req where
  | get : Req
  | post : Option (List Val) → Req

/-- The normalization of one entry of the posted alerts list: non-dicts are
skipped (`none`); a dict in entity-wrapper format (a "data" entry whose
"type" is "ENTITY") is flattened to `technical_id` plus the inner data
dict, raising on any missing piece; any other dict passes through. -/
def norm_entity (v : Val) : Except String (Option Val) :=
  match v with
  | Val.dict d =>
    match getKey d "data" with
    | none => Except.ok (some (Val.dict d))
    | some (Val.dict dd) =>
      match getKey dd "type" with
      | some (Val.str ty) =>
        if ty = "ENTITY" then
          match getKey dd "data" with
          | none => Except.error "KeyError: data"
          | some ed =>
            match getKey dd "meta" with
            | none => Except.error "KeyError: meta"
            | some (Val.dict md) =>
              match getKey md "id" with
              | none => Except.error "KeyError: id"
              | some idv =>
                match ed with
                | Val.dict edd =>
                  Except.ok (some (Val.dict (("technical_id",
                    (getKey edd "technical_id").getD idv) ::
                    edd.filter (fun p => p.1 != "technical_id"))))
                | _ => Except.error "TypeError: argument after ** must be a mapping"
            | some _ => Except.error "TypeError: meta is not subscriptable"
        else Except.ok (some (Val.dict d))
      | _ => Except.ok (some (Val.dict d))
    | some _ => Except.error "AttributeError: get"
  | _ => Except.ok none

/-- The normalization loop over the posted alerts list, in order. -/
def norm_alerts (es : List Val) : Except String (List Val) :=
  match es with
  | [] => Except.ok []
  | e :: rest =>
    match norm_entity e with
    | Except.error msg => Except.error msg
    | Except.ok o =>
      match norm_alerts rest with
      | Except.error msg => Except.error msg
      | Except.ok r =>
        Except.ok (match o with
          | some a => a :: r
          | none => r)

/-- Embeds `CyodaAlertClient.list_all_alerts()`: the MCP list specification. -/
def mcp_list_spec : List (String × Val) :=
  [("entity_model", Val.str "climate_alert"), ("entity_version", Val.str "1")]

/-- The GET-branch response of `list_alerts`. -/
def list_alerts_get_resp (cache : List Val) : Val :=
  if cache.isEmpty then
    Val.dict [("success", Val.bool true),
      ("mcp_spec", Val.dict mcp_list_spec),
      ("message",
        Val.str "No cached alerts. Execute MCP tool and POST results to /api/alerts/list"),
      ("alerts", Val.list []), ("cached", Val.bool false)]
  else
    Val.dict [("success", Val.bool true), ("alerts", Val.list cache),
      ("count", Val.num (cache.length : ℚ)), ("cached", Val.bool true)]

/-- The `list_alerts` view function: new cache contents paired with the
response (or the propagated exception). -/
def list_alerts_route (cache : List Val) (r : Req) :
    List Val × Except String Val :=
  match r with
  | Req.post (some es) =>
    match norm_alerts es with
    | Except.error msg => (cache, Except.error msg)
    | Except.ok alerts =>
      (alerts, Except.ok (Val.dict [("success", Val.bool true),
        ("message", Val.str ("Cached " ++ toString alerts.length ++ " alerts")),
        ("count", Val.num (alerts.length : ℚ))]))
  | _ => (cache, Except.ok (list_alerts_get_resp cache))

/-- C8 counterexample: a POST carrying an alerts field whose single entity
is a malformed entity wrapper (`{"data": {"type": "ENTITY"}}`, no inner
data) raises a KeyError, so the prior cache contents are NOT discarded:
the cached list still holds the old alert afterwards. -/
theorem list_alerts_replace_counterexample :
    (list_alerts_route [Val.dict [("severity", Val.str "high")]]
      (Req.post (some [Val.dict [("data", Val.dict [("type",
        Val.str "ENTITY")])]]))).1 = [Val.dict [("severity", Val.str "high")]] ∧
    (list_alerts_route [Val.dict [("severity", Val.str "high")]]
      (Req.post (some [Val.dict [("data", Val.dict [("type",
        Val.str "ENTITY")])]]))).2 = Except.error "KeyError: data" := by
  constructor <;> rfl

/-- C8 as amended: a POST carrying an alerts field whose normalization
succeeds replaces the entire cached list with the normalized alerts of
that request (prior contents discarded, never appended to); a POST whose
normalization raises produces an error response and leaves the cache
unchanged; a GET never changes the cached list, returns the cached alerts
when the list is non-empty, and otherwise returns an empty alerts list
together with the MCP list specification. -/
theorem list_alerts_cache_spec (cache es alerts : List Val) :
    (norm_alerts es = Except.ok alerts →
      (list_alerts_route cache (Req.post (some es))).1 = alerts) ∧
    (∀ msg, norm_alerts es = Except.error msg →
      (list_alerts_route cache (Req.post (some es))).1 = cache ∧
      (list_alerts_route cache (Req.post (some es))).2 = Except.error msg) ∧
    ((list_alerts_route cache Req.get).1 = cache) ∧
    (cache ≠ [] →
      (list_alerts_route cache Req.get).2 =
        Except.ok (Val.dict [("success", Val.bool true),
          ("alerts", Val.list cache), ("count", Val.num (cache.length : ℚ)),
          ("cached", Val.bool true)])) ∧
    (cache = [] →
      (list_alerts_route cache Req.get).2 =
        Except.ok (Val.dict [("success", Val.bool true),
          ("mcp_spec", Val.dict mcp_list_spec),
          ("message",
            Val.str "No cached alerts. Execute MCP tool and POST results to /api/alerts/list"),
          ("alerts", Val.list []), ("cached", Val.bool false)])) := by
  refine ⟨?_, ?_, rfl, ?_, ?_⟩
  · intro h
    simp [list_alerts_route, h]
  · intro msg h
    simp [list_alerts_route, h]
  · intro h
    have : cache.isEmpty = false := by
      cases cache with
      | nil => exact absurd rfl h
      | cons a t => rfl
    simp [list_alerts_route, list_alerts_get_resp, this]
  · intro h
    subst h
    rfl

/-- C8 witness: a successful POST with one plain alert replaces an empty
cache, by the amended theorem. -/
theorem list_alerts_cache_spec_witness :
    (list_alerts_route [] (Req.post (some [Val.dict [("severity",
      Val.str "low")]]))).1 = [Val.dict [("severity", Val.str "low")]] :=
  (list_alerts_cache_spec [] [Val.dict [("severity", Val.str "low")]]
    [Val.dict [("severity", Val.str "low")]]).1 (by rfl)

end UruguayClimate
